import Mathlib

/-!
Verification of the frame rendering pipeline and GPU resource lifecycle of the
Rust3DEngine repository.  Each definition is a shallow embedding of a Rust
function or code path from the repository sources; the file reference is given
in the doc comment of every definition.  Machine integers (u32, i32) are
modelled as Nat: all the embedded arithmetic (increment modulo a small
constant, halving, shifting) stays far below any overflow boundary.
-/

namespace RustEngine3D

/-- Embeds constants.rs MAX_FRAME_COUNT (number of frame slots in flight). -/
def MAX_FRAME_COUNT : Nat := 2

/-- Embeds constants.rs SWAPCHAIN_IMAGE_COUNT. -/
def SWAPCHAIN_IMAGE_COUNT : Nat := 3

/-- Embeds constants.rs SHADOW_MAP_SIZE. -/
def SHADOW_MAP_SIZE : Nat := 2048

/-- Embeds fft_ocean.rs PASSES (number of FFT passes). -/
def PASSES : Nat := 8

/-- Embeds fft_ocean.rs FFT_SIZE = 1 << PASSES. -/
def FFT_SIZE : Nat := 1 <<< PASSES

/-- Embeds fft_ocean.rs N_SLOPE_VARIANCE. -/
def N_SLOPE_VARIANCE : Nat := 10

/-- Embeds fft_ocean.rs FFT_LAYER_COUNT. -/
def FFT_LAYER_COUNT : Nat := 5

/-- Fuel-bounded floor of the base-2 logarithm: halve until below 2,
counting the steps.  Structural recursion on the fuel keeps it computable by
the kernel. -/
def log2_aux : Nat → Nat → Nat
  | 0, _ => 0
  | fuel + 1, n => if 2 ≤ n then log2_aux fuel (n / 2) + 1 else 0

/-- Floor of the base-2 logarithm on the u32 range (the domain of the
dimensions handled by texture.rs): 32 halvings always suffice. -/
def floor_log2_u32 (n : Nat) : Nat :=
  log2_aux 32 n

/-- The value of the u32-to-f32 cast performed by texture.rs calc_mip_levels
(max_size as f32): round to nearest with a 24-bit significand, ties to even.
Exact below 2 ^ 24; above, the bits below the top 24 are rounded away, so the
result is again a natural number. -/
def f32_round_to_nearest (n : Nat) : Nat :=
  if n < 2 ^ 24 then n
  else
    let e := floor_log2_u32 n - 23
    let q := n / 2 ^ e
    let r := n % 2 ^ e
    let half := 2 ^ (e - 1)
    let q2 :=
      if r < half then q
      else if half < r then q + 1
      else if q % 2 = 0 then q else q + 1
    q2 * 2 ^ e

/-- Embeds texture.rs calc_mip_levels.  The source casts
max(width, height, depth) to f32, applies f32 log2, floors and adds one.
The cast is modelled by f32_round_to_nearest; the log2-then-floor is
modelled as the exact floor log2 of the rounded value, which is what any
log2 implementation exact on powers of two yields whenever the rounded
value is a power of two or lies clear of a power-of-two boundary. -/
def calc_mip_levels (image_width image_height image_depth : Nat) : Nat :=
  floor_log2_u32 (f32_round_to_nearest (max image_width (max image_height image_depth))) + 1

/-- Embeds vk::ImageViewType as used by texture.rs. -/
inductive ImageViewType
  | type1d
  | type2d
  | type2dArray
  | cube
  | cubeArray
  | type3d
  deriving DecidableEq

/-- Embeds the render-target kind enumeration of render_target.rs
(RenderTargetType, repr(i32), declaration order preserved). -/
inductive RenderTargetType
  | SceneColor
  | SceneColorCopy
  | SceneDepth
  | HierarchicalMinZ
  | BackBuffer
  | BackBufferCopy
  | SceneAlbedo
  | SceneNormal
  | SceneMaterial
  | SceneVelocity
  | TAAResolve
  | Bloom0
  | BloomTemp0
  | LightShaft
  | SSAO
  | SSAOTemp
  | Shadow
  | SSR
  | SSRResolved
  | SSRResolvedPrev
  | FFT_A
  | FFT_B
  | FFT_SLOPE_VARIANCE
  | MaxBound
  deriving DecidableEq

/-- Ordinal of a RenderTargetType value: the integer the source obtains by
the as-i32 cast in next_debug_render_target and prev_debug_render_target. -/
def RenderTargetType.toOrdinal : RenderTargetType → Nat
  | .SceneColor => 0
  | .SceneColorCopy => 1
  | .SceneDepth => 2
  | .HierarchicalMinZ => 3
  | .BackBuffer => 4
  | .BackBufferCopy => 5
  | .SceneAlbedo => 6
  | .SceneNormal => 7
  | .SceneMaterial => 8
  | .SceneVelocity => 9
  | .TAAResolve => 10
  | .Bloom0 => 11
  | .BloomTemp0 => 12
  | .LightShaft => 13
  | .SSAO => 14
  | .SSAOTemp => 15
  | .Shadow => 16
  | .SSR => 17
  | .SSRResolved => 18
  | .SSRResolvedPrev => 19
  | .FFT_A => 20
  | .FFT_B => 21
  | .FFT_SLOPE_VARIANCE => 22
  | .MaxBound => 23

/-- Inverse of the ordinal map: the std::mem::transmute of an i32 back into
RenderTargetType performed by the source.  The source only ever transmutes
ordinals in range; out-of-range arguments cannot occur and are mapped to
MaxBound. -/
def RenderTargetType.ofOrdinal : Nat → RenderTargetType
  | 0 => .SceneColor
  | 1 => .SceneColorCopy
  | 2 => .SceneDepth
  | 3 => .HierarchicalMinZ
  | 4 => .BackBuffer
  | 5 => .BackBufferCopy
  | 6 => .SceneAlbedo
  | 7 => .SceneNormal
  | 8 => .SceneMaterial
  | 9 => .SceneVelocity
  | 10 => .TAAResolve
  | 11 => .Bloom0
  | 12 => .BloomTemp0
  | 13 => .LightShaft
  | 14 => .SSAO
  | 15 => .SSAOTemp
  | 16 => .Shadow
  | 17 => .SSR
  | 18 => .SSRResolved
  | 19 => .SSRResolvedPrev
  | 20 => .FFT_A
  | 21 => .FFT_B
  | 22 => .FFT_SLOPE_VARIANCE
  | _ => .MaxBound

/-- Embeds renderer.rs next_debug_render_target: MaxBound wraps to ordinal 0,
every other value is transmuted to its ordinal plus one. -/
def next_debug_render_target (debug_render_target : RenderTargetType) : RenderTargetType :=
  if RenderTargetType.MaxBound = debug_render_target then
    RenderTargetType.ofOrdinal 0
  else
    RenderTargetType.ofOrdinal (debug_render_target.toOrdinal + 1)

/-- Embeds renderer.rs prev_debug_render_target: ordinal 0 wraps to
MaxBound - 1, every other value is transmuted to its ordinal minus one. -/
def prev_debug_render_target (debug_render_target : RenderTargetType) : RenderTargetType :=
  if 0 = debug_render_target.toOrdinal then
    RenderTargetType.ofOrdinal (RenderTargetType.MaxBound.toOrdinal - 1)
  else
    RenderTargetType.ofOrdinal (debug_render_target.toOrdinal - 1)

/-- Embeds texture.rs TextureCreateInfo (the fields the modelled code paths
read).  The source names targets by string and parses the name back with
FromStr; the enum value is carried directly here.  Field defaults follow the
Default impl in texture.rs: width, height, depth and layer 1, view type 2D,
mipmapping enabled. -/
structure TextureCreateInfo where
  texture_name : RenderTargetType
  texture_width : Nat := 1
  texture_height : Nat := 1
  texture_depth : Nat := 1
  texture_layer : Nat := 1
  texture_view_type : ImageViewType := ImageViewType.type2d
  enable_mipmap : Bool := true
  deriving DecidableEq

/-- Embeds vk::ImageSubresourceRange as filled in by texture.rs. -/
structure ImageSubresourceRange where
  base_mip_level : Nat
  level_count : Nat
  base_array_layer : Nat
  layer_count : Nat
  deriving DecidableEq

/-- Embeds texture.rs create_image_view, restricted to the subresource range
of the view it creates.  The source fills the range with
level_count := layer_count and layer_count := mip_levels (texture.rs lines
447 to 453), which this embedding reproduces verbatim. -/
def create_image_view (layer_count mip_levels : Nat) : ImageSubresourceRange :=
  { base_mip_level := 0
    level_count := layer_count
    base_array_layer := 0
    layer_count := mip_levels }

/-- Embeds texture.rs TextureData (the fields the modelled code paths read),
extended with the subresource range of the created image view. -/
structure TextureData where
  image_width : Nat
  image_height : Nat
  image_depth : Nat
  image_mip_levels : Nat
  image_layer_count : Nat
  view_subresource_range : ImageSubresourceRange
  deriving DecidableEq

/-- Embeds texture.rs create_render_target: layer_count is 6 for cube views
and 1 otherwise, mip_levels is calc_mip_levels when mipmapping is enabled and
1 otherwise, and the image view is built by create_image_view with arguments
(layer_count, mip_levels) in that order. -/
def create_render_target (info : TextureCreateInfo) : TextureData :=
  let layer_count : Nat := if info.texture_view_type = ImageViewType.cube then 6 else 1
  let mip_levels : Nat :=
    if info.enable_mipmap then
      calc_mip_levels info.texture_width info.texture_height info.texture_depth
    else 1
  { image_width := info.texture_width
    image_height := info.texture_height
    image_depth := info.texture_depth
    image_mip_levels := mip_levels
    image_layer_count := layer_count
    view_subresource_range := create_image_view layer_count mip_levels }

/-- Embeds render_target.rs get_render_target_create_infos: the 23 render
targets (every RenderTargetType except the MaxBound sentinel), in declaration
order, with their extents.  Window-size-dependent targets use the swapchain
extent at full, half or quarter resolution; Shadow uses SHADOW_MAP_SIZE and
the FFT targets use the fixed simulation sizes. -/
def get_render_target_create_infos (window_width window_height : Nat) : List TextureCreateInfo :=
  [ { texture_name := RenderTargetType.SceneColor, texture_width := window_width, texture_height := window_height },
    { texture_name := RenderTargetType.SceneColorCopy, texture_width := window_width, texture_height := window_height },
    { texture_name := RenderTargetType.SceneDepth, texture_width := window_width, texture_height := window_height },
    { texture_name := RenderTargetType.HierarchicalMinZ, texture_width := window_width, texture_height := window_height },
    { texture_name := RenderTargetType.BackBuffer, texture_width := window_width, texture_height := window_height },
    { texture_name := RenderTargetType.BackBufferCopy, texture_width := window_width, texture_height := window_height },
    { texture_name := RenderTargetType.SceneAlbedo, texture_width := window_width, texture_height := window_height },
    { texture_name := RenderTargetType.SceneMaterial, texture_width := window_width, texture_height := window_height },
    { texture_name := RenderTargetType.SceneNormal, texture_width := window_width, texture_height := window_height },
    { texture_name := RenderTargetType.SceneVelocity, texture_width := window_width, texture_height := window_height },
    { texture_name := RenderTargetType.TAAResolve, texture_width := window_width, texture_height := window_height },
    { texture_name := RenderTargetType.Bloom0, texture_width := window_width / 2, texture_height := window_height / 2 },
    { texture_name := RenderTargetType.BloomTemp0, texture_width := window_width / 2, texture_height := window_height / 2 },
    { texture_name := RenderTargetType.LightShaft, texture_width := window_width / 2, texture_height := window_height / 2 },
    { texture_name := RenderTargetType.SSAO, texture_width := window_width / 2, texture_height := window_height / 2 },
    { texture_name := RenderTargetType.SSAOTemp, texture_width := window_width / 2, texture_height := window_height / 2 },
    { texture_name := RenderTargetType.Shadow, texture_width := SHADOW_MAP_SIZE, texture_height := SHADOW_MAP_SIZE },
    { texture_name := RenderTargetType.SSR, texture_width := window_width / 4, texture_height := window_height / 4 },
    { texture_name := RenderTargetType.SSRResolved, texture_width := window_width / 4, texture_height := window_height / 4 },
    { texture_name := RenderTargetType.SSRResolvedPrev, texture_width := window_width / 4, texture_height := window_height / 4 },
    { texture_name := RenderTargetType.FFT_A, texture_width := FFT_SIZE, texture_height := FFT_SIZE,
      texture_layer := FFT_LAYER_COUNT, texture_view_type := ImageViewType.type2dArray },
    { texture_name := RenderTargetType.FFT_B, texture_width := FFT_SIZE, texture_height := FFT_SIZE,
      texture_layer := FFT_LAYER_COUNT, texture_view_type := ImageViewType.type2dArray },
    { texture_name := RenderTargetType.FFT_SLOPE_VARIANCE, texture_width := N_SLOPE_VARIANCE,
      texture_height := N_SLOPE_VARIANCE, texture_depth := N_SLOPE_VARIANCE,
      texture_view_type := ImageViewType.type3d } ]

/-- Key set of the render-target map built by renderer.rs
create_render_targets: one entry per create info. -/
def render_target_data_map_keys (window_width window_height : Nat) : List RenderTargetType :=
  (get_render_target_create_infos window_width window_height).map TextureCreateInfo.texture_name

/-- Embeds the GPU synchronization calls issued by renderer.rs
present_swapchain, as trace events.  queueSubmit carries the fence argument
passed to vkQueueSubmit (none models VK_NULL_HANDLE); resetFences and
waitForFences carry the frame-slot index whose fence is involved. -/
inductive GpuSyncEvent
  | resetFences (slot : Nat)
  | queueSubmit (fence : Option Nat)
  | waitForFences (slot : Nat)
  | queuePresent
  | deviceWaitIdle
  deriving DecidableEq

/-- Embeds the local waiting_for_fence flag in renderer.rs present_swapchain:
the source hardcodes it to false. -/
def waiting_for_fence : Bool := false

/-- Embeds the synchronization-call sequence of renderer.rs present_swapchain
for the frame slot whose fence and semaphores were selected by render_scene:
reset the slot fence, submit (with the fence only when waiting_for_fence),
wait on the fence only when waiting_for_fence, present, then block in
device_wait_idle. -/
def present_swapchain_trace (slot : Nat) : List GpuSyncEvent :=
  [GpuSyncEvent.resetFences slot,
   GpuSyncEvent.queueSubmit (if waiting_for_fence then some slot else none)]
  ++ (if waiting_for_fence then [GpuSyncEvent.waitForFences slot] else [])
  ++ [GpuSyncEvent.queuePresent, GpuSyncEvent.deviceWaitIdle]

/-- The synchronization calls of n consecutive successfully rendered frames:
render_scene selects slot frame_index, calls present_swapchain, then advances
frame_index modulo MAX_FRAME_COUNT, so frame k uses slot k % MAX_FRAME_COUNT. -/
def render_loop_trace (n : Nat) : List GpuSyncEvent :=
  (List.range n).flatMap (fun k => present_swapchain_trace (k % MAX_FRAME_COUNT))

/-- Event a occurs at a strictly earlier position than event b in the trace. -/
def occursBefore {α : Type} (a b : α) (tr : List α) : Prop :=
  ∃ i j : Nat, i < j ∧ tr[i]? = some a ∧ tr[j]? = some b

/-- Embeds the vk::Result codes distinguished by renderer.rs render_scene. -/
inductive VkResultCode
  | success
  | suboptimalKhr
  | errorOutOfDateKhr
  | errorDeviceLost
  deriving DecidableEq

/-- Observable outcome of one renderer.rs render_scene call. -/
structure FrameOutcome where
  needRecreateSwapchain : Bool
  frameIndexAfter : Nat
  rendered : Bool
  submittedCommandBuffer : Option Nat
  deriving DecidableEq

/-- Embeds the control flow of renderer.rs render_scene.  acquireResult is
the return of vkAcquireNextImageKHR as surfaced by ash: ok with the swapchain
image index and the suboptimal flag, or error with a vk::Result code.
queuePresentResult is the return of vkQueuePresentKHR inside
present_swapchain (ok with the suboptimal flag, or error).  The source calls
.unwrap() on the acquire result, so an acquire error panics: modelled as
none.  On success with the suboptimal flag set, rendering is skipped and the
present result is taken to be SUBOPTIMAL_KHR; otherwise the frame is recorded
into the command buffer indexed by the returned swapchain image index and
presented.  An out-of-date or suboptimal present result sets
need_recreate_swapchain; the frame index always advances modulo
MAX_FRAME_COUNT. -/
def render_scene (frame_index : Nat) (need_recreate_swapchain : Bool)
    (acquireResult : Except VkResultCode (Nat × Bool))
    (queuePresentResult : Except VkResultCode Bool) : Option FrameOutcome :=
  match acquireResult with
  | Except.error _ => none
  | Except.ok (swapchain_index, is_swapchain_suboptimal) =>
    let present_result : VkResultCode :=
      if is_swapchain_suboptimal = false then
        match queuePresentResult with
        | Except.ok true => VkResultCode.suboptimalKhr
        | Except.ok false => VkResultCode.success
        | Except.error err => err
      else VkResultCode.suboptimalKhr
    let need_recreate_after : Bool :=
      if present_result = VkResultCode.errorOutOfDateKhr ∨ present_result = VkResultCode.suboptimalKhr
      then true
      else need_recreate_swapchain
    some
      { needRecreateSwapchain := need_recreate_after
        frameIndexAfter := (frame_index + 1) % MAX_FRAME_COUNT
        rendered := !is_swapchain_suboptimal
        submittedCommandBuffer := if is_swapchain_suboptimal then none else some swapchain_index }

/-- Embeds the frame-slot advance at the end of renderer.rs render_scene. -/
def advance_frame_index (frame_index : Nat) : Nat :=
  (frame_index + 1) % MAX_FRAME_COUNT

/-- Embeds the destruction and recreation actions of the swapchain-recreation
path, as trace events (application.rs run_application, renderer.rs
resize_window and recreate_swapchain). -/
inductive ResizeEvent
  | destroySceneGraphicsData
  | destroyUIDescriptorSets
  | destroyFontDescriptorSets
  | deviceWaitIdle
  | unloadGraphicsDatas
  | destroyRenderTarget (target : RenderTargetType)
  | destroyCommandBuffers
  | destroySwapchain
  | createSwapchain
  | createCommandBuffers
  | createRenderTarget (info : TextureCreateInfo)
  | loadGraphicsDatas
  | createFontDescriptorSets
  | createUIDescriptorSets
  | initializeSceneGraphicsData
  | clearNeedsRecreate
  deriving DecidableEq

/-- Embeds renderer.rs destroy_render_targets: every entry of the
render-target map is destroyed and the map is cleared.  The map is a HashMap
whose iteration order is unspecified; the model lists the destroyed targets
in map-insertion (create-info) order, which is irrelevant to the claims. -/
def destroy_render_targets_trace (window_width window_height : Nat) : List ResizeEvent :=
  (render_target_data_map_keys window_width window_height).map ResizeEvent.destroyRenderTarget

/-- Embeds renderer.rs create_render_targets at the given (new) extent. -/
def create_render_targets_trace (window_width window_height : Nat) : List ResizeEvent :=
  (get_render_target_create_infos window_width window_height).map ResizeEvent.createRenderTarget

/-- Embeds renderer.rs recreate_swapchain: destroy the command buffers and
the swapchain, then recreate the swapchain and the command buffers. -/
def recreate_swapchain_trace : List ResizeEvent :=
  [ResizeEvent.destroyCommandBuffers, ResizeEvent.destroySwapchain,
   ResizeEvent.createSwapchain, ResizeEvent.createCommandBuffers]

/-- Embeds renderer.rs resize_window: device_wait_idle, unload the graphics
datas (framebuffers and descriptor sets), destroy all render targets,
recreate the swapchain and command buffers, recreate all render targets at
the new extent, reload the graphics datas. -/
def resize_window_trace (window_width window_height : Nat) : List ResizeEvent :=
  ResizeEvent.deviceWaitIdle :: ResizeEvent.unloadGraphicsDatas ::
    (destroy_render_targets_trace window_width window_height
     ++ recreate_swapchain_trace
     ++ create_render_targets_trace window_width window_height
     ++ [ResizeEvent.loadGraphicsDatas])

/-- Embeds the need_recreate_swapchain branch at the top of the frame loop in
application.rs run_application: destroy the scene, UI and font descriptor
sets, run resize_window, recreate them, then clear the flag. -/
def run_application_recreate_trace (window_width window_height : Nat) : List ResizeEvent :=
  [ResizeEvent.destroySceneGraphicsData, ResizeEvent.destroyUIDescriptorSets,
   ResizeEvent.destroyFontDescriptorSets]
  ++ resize_window_trace window_width window_height
  ++ [ResizeEvent.createFontDescriptorSets, ResizeEvent.createUIDescriptorSets,
      ResizeEvent.initializeSceneGraphicsData, ResizeEvent.clearNeedsRecreate]

/-- The protocol step a resize event belongs to, for stating that the code
performs the steps in order: 0 destruction of external descriptor sets
(before the idle wait), 1 idle wait, 2 destruction of framebuffers,
descriptor sets and render targets, 3 swapchain and command-buffer
destruction, 4 swapchain and command-buffer recreation, 5 render-target
recreation, 6 framebuffer and descriptor-set recreation, 7 recreation of
external descriptor sets, 8 clearing the flag. -/
def resizePhase : ResizeEvent → Nat
  | ResizeEvent.destroySceneGraphicsData => 0
  | ResizeEvent.destroyUIDescriptorSets => 0
  | ResizeEvent.destroyFontDescriptorSets => 0
  | ResizeEvent.deviceWaitIdle => 1
  | ResizeEvent.unloadGraphicsDatas => 2
  | ResizeEvent.destroyRenderTarget _ => 2
  | ResizeEvent.destroyCommandBuffers => 3
  | ResizeEvent.destroySwapchain => 3
  | ResizeEvent.createSwapchain => 4
  | ResizeEvent.createCommandBuffers => 4
  | ResizeEvent.createRenderTarget _ => 5
  | ResizeEvent.loadGraphicsDatas => 6
  | ResizeEvent.createFontDescriptorSets => 7
  | ResizeEvent.createUIDescriptorSets => 7
  | ResizeEvent.initializeSceneGraphicsData => 7
  | ResizeEvent.clearNeedsRecreate => 8

/-- An event that destroys a GPU resource. -/
def isDestructionEvent : ResizeEvent → Bool
  | ResizeEvent.destroySceneGraphicsData => true
  | ResizeEvent.destroyUIDescriptorSets => true
  | ResizeEvent.destroyFontDescriptorSets => true
  | ResizeEvent.unloadGraphicsDatas => true
  | ResizeEvent.destroyRenderTarget _ => true
  | ResizeEvent.destroyCommandBuffers => true
  | ResizeEvent.destroySwapchain => true
  | _ => false

/-- The property the claim asserts of the resize protocol: the fixed-size
resources (shadow map, FFT textures) are not destroyed by it. -/
def fixed_size_targets_untouched (tr : List ResizeEvent) : Prop :=
  ResizeEvent.destroyRenderTarget RenderTargetType.Shadow ∉ tr
  ∧ ResizeEvent.destroyRenderTarget RenderTargetType.FFT_A ∉ tr
  ∧ ResizeEvent.destroyRenderTarget RenderTargetType.FFT_B ∉ tr
  ∧ ResizeEvent.destroyRenderTarget RenderTargetType.FFT_SLOPE_VARIANCE ∉ tr

/-- The property the claim asserts of the resize protocol: no destruction
event occurs before the idle wait. -/
def no_destruction_before_idle_wait (tr : List ResizeEvent) : Prop :=
  ∀ e ∈ tr.takeWhile (fun ev => decide (ev ≠ ResizeEvent.deviceWaitIdle)),
    isDestructionEvent e = false

/-- Embeds the command-recording calls issued by renderer.rs render_solid and
render_shadow, as trace events.  beginRenderPassPipeline and
bindDescriptorSets carry the identity of the pipeline binding data they use
(a render element is represented by the identity of its pipeline binding
data, the only datum these code paths dispatch on). -/
inductive DrawEvent
  | beginRenderPassPipeline (binding : Nat)
  | bindDescriptorSets (binding : Nat)
  | uploadBoneMatrices
  | uploadPushConstantData
  | drawElements
  | endRenderPass
  deriving DecidableEq

/-- Embeds renderer.rs RenderObjectType. -/
inductive RenderObjectType
  | Static
  | Skeletal
  deriving DecidableEq

/-- The body of the render-element loop of renderer.rs render_solid for the
elements after the setup at index 0: for every element, bind its descriptor
sets, upload its push constants, draw. -/
def render_solid_loop : List Nat → List DrawEvent
  | [] => []
  | binding :: rest =>
    DrawEvent.bindDescriptorSets binding :: DrawEvent.uploadPushConstantData ::
      DrawEvent.drawElements :: render_solid_loop rest

/-- Embeds renderer.rs render_solid: an empty element list returns at once;
otherwise at loop index 0 the bone-matrix buffers are uploaded (skeletal
objects only) and the render pass is begun with the pipeline of element 0,
then every element (index 0 included) gets bindDescriptorSets,
uploadPushConstantData and drawElements, and the pass is ended once. -/
def render_solid (render_object_type : RenderObjectType) (render_elements : List Nat) : List DrawEvent :=
  match render_elements with
  | [] => []
  | binding0 :: _ =>
    (if render_object_type = RenderObjectType.Skeletal then [DrawEvent.uploadBoneMatrices] else [])
    ++ DrawEvent.beginRenderPassPipeline binding0 ::
        (render_solid_loop render_elements ++ [DrawEvent.endRenderPass])

/-- The body of the render-element loop of renderer.rs render_shadow: for
every element, upload its push constants and draw (no per-element binds). -/
def render_shadow_loop : List Nat → List DrawEvent
  | [] => []
  | _ :: rest =>
    DrawEvent.uploadPushConstantData :: DrawEvent.drawElements :: render_shadow_loop rest

/-- Embeds renderer.rs render_shadow: an empty element list returns at once;
otherwise the shadow material pipeline binding (selected by object type, not
per element) is begun and bound once, every element gets
uploadPushConstantData and drawElements, and the pass is ended once. -/
def render_shadow (shadow_binding : Nat) (render_elements : List Nat) : List DrawEvent :=
  match render_elements with
  | [] => []
  | _ :: _ =>
    DrawEvent.beginRenderPassPipeline shadow_binding ::
      DrawEvent.bindDescriptorSets shadow_binding ::
        (render_shadow_loop render_elements ++ [DrawEvent.endRenderPass])

/-- Number of bindDescriptorSets calls in a recording trace. -/
def countBinds : List DrawEvent → Nat
  | [] => 0
  | DrawEvent.bindDescriptorSets _ :: rest => countBinds rest + 1
  | _ :: rest => countBinds rest

/-- Number of beginRenderPassPipeline calls in a recording trace. -/
def countBegins : List DrawEvent → Nat
  | [] => 0
  | DrawEvent.beginRenderPassPipeline _ :: rest => countBegins rest + 1
  | _ :: rest => countBegins rest

/-- Number of endRenderPass calls in a recording trace. -/
def countEnds : List DrawEvent → Nat
  | [] => 0
  | DrawEvent.endRenderPass :: rest => countEnds rest + 1
  | _ :: rest => countEnds rest

/-- Number of positions at which the pipeline binding of consecutive render
elements differs. -/
def bindingChanges : List Nat → Nat
  | [] => 0
  | [_] => 0
  | a :: b :: rest => (if a = b then 0 else 1) + bindingChanges (b :: rest)

/-- The property the claim asserts of a multi-draw pass: a descriptor-set
bind is issued only when the pipeline binding changes between consecutive
elements, so the number of binds is one plus the number of changes. -/
def minimal_bind_claim (render_object_type : RenderObjectType) (render_elements : List Nat) : Prop :=
  countBinds (render_solid render_object_type render_elements) =
    if render_elements = [] then 0 else 1 + bindingChanges render_elements

/-- One descriptor set of the mip-downsampling compute chain built by
fft_ocean.rs: the sub-image infos written at positions 0 and 1 of the
descriptor resource infos, each identified by its (layer, mip level) pair. -/
structure MipDescriptorSet where
  binding0 : Nat × Nat
  binding1 : Nat × Nat
  deriving DecidableEq

/-- Embeds the fft-a-generate-mips descriptor-set build loop of fft_ocean.rs
(lines 313 to 334): for each of the image_layer layers, for each mip
transition below image_mip_levels - 1, one descriptor set binding the
(layer, mip) sub-image at position 0 and the (layer, mip + 1) sub-image at
position 1. -/
def fft_a_generate_mips_descriptor_sets (image_layer image_mip_levels : Nat) :
    List (List MipDescriptorSet) :=
  (List.range image_layer).map (fun layer =>
    (List.range (image_mip_levels - 1)).map (fun mip_level =>
      { binding0 := (layer, mip_level), binding1 := (layer, mip_level + 1) }))

/-- Embeds the per-axis group count of the dispatch in fft_ocean.rs (lines
606 to 611): max(1, base_dim >> (mip_level + 1)), where base_dim is the base
extent of the texture captured at build time. -/
def dispatch_compute_group_count (base_dim mip_level : Nat) : Nat :=
  max 1 (base_dim >>> (mip_level + 1))

/-- Claim C8: the frame-slot index advances by (index + 1) mod
MAX_FRAME_COUNT at the end of every render_scene call, stays in range, and
returns to its starting value after MAX_FRAME_COUNT frames, cycling
0, 1, 0, and so on. -/
theorem C8_frame_slot_rotation :
    (∀ fi : Nat, advance_frame_index fi < MAX_FRAME_COUNT)
    ∧ (∀ fi : Nat, fi < MAX_FRAME_COUNT →
        advance_frame_index^[MAX_FRAME_COUNT] fi = fi)
    ∧ advance_frame_index 0 = 1
    ∧ advance_frame_index 1 = 0
    ∧ (∀ fi nr idx subopt p out,
        render_scene fi nr (Except.ok (idx, subopt)) p = some out →
        out.frameIndexAfter = advance_frame_index fi) := by
  refine ⟨?_, ?_, rfl, rfl, ?_⟩
  · intro fi
    exact Nat.mod_lt _ (by decide)
  · intro fi hfi
    have hfi2 : fi < 2 := hfi
    interval_cases fi <;> decide
  · intro fi nr idx subopt p out hout
    cases subopt
    · cases p with
      | error e => cases e <;> (obtain rfl := Option.some.inj hout; rfl)
      | ok b => cases b <;> (obtain rfl := Option.some.inj hout; rfl)
    · obtain rfl := Option.some.inj hout; rfl

/-- Witness for C8: slot 1 returns to itself after two frames, and a
successful concrete frame advances the index from 0 to 1. -/
theorem C8_witness :
    advance_frame_index^[MAX_FRAME_COUNT] 1 = 1
    ∧ (FrameOutcome.mk false 1 true (some 2)).frameIndexAfter = advance_frame_index 0 :=
  ⟨C8_frame_slot_rotation.2.1 1 (by decide),
   C8_frame_slot_rotation.2.2.2.2 0 false 2 false (Except.ok false) _ rfl⟩

/-- Claim C9: create_image_view exchanges its two count arguments — the
subresource range it builds has level_count equal to the layer_count
argument and layer_count equal to the mip_levels argument — so every
non-cube render target (image layer count 1) gets a view declaring one mip
level and image_mip_levels array layers; at 1024 x 768 the SceneColor target
has 11 mip levels yet its view covers level_count 1 and layer_count 11. -/
theorem C9_image_view_swapped_counts
    (l m : Nat) (info : TextureCreateInfo)
    (hc : info.texture_view_type ≠ ImageViewType.cube) :
    (create_image_view l m).level_count = l
    ∧ (create_image_view l m).layer_count = m
    ∧ (create_render_target info).image_layer_count = 1
    ∧ (create_render_target info).view_subresource_range.level_count = 1
    ∧ (create_render_target info).view_subresource_range.layer_count
        = (create_render_target info).image_mip_levels
    ∧ (create_render_target
        { texture_name := RenderTargetType.SceneColor,
          texture_width := 1024, texture_height := 768 }).image_mip_levels = 11
    ∧ (create_render_target
        { texture_name := RenderTargetType.SceneColor,
          texture_width := 1024, texture_height := 768 }).view_subresource_range.level_count = 1
    ∧ (create_render_target
        { texture_name := RenderTargetType.SceneColor,
          texture_width := 1024, texture_height := 768 }).view_subresource_range.layer_count = 11 := by
  have hmip : calc_mip_levels 1024 768 1 = 11 := by decide
  refine ⟨rfl, rfl, ?_, ?_, ?_, ?_, ?_, ?_⟩
  · simp [create_render_target, if_neg hc]
  · simp [create_render_target, create_image_view, if_neg hc]
  · simp [create_render_target, create_image_view]
  · simp [create_render_target, hmip]
  · simp [create_render_target, create_image_view]
  · simp [create_render_target, create_image_view, hmip]

/-- Witness for C9 at the SceneDepth create info (a non-cube target). -/
theorem C9_witness :
    (create_render_target
      { texture_name := RenderTargetType.SceneDepth,
        texture_width := 1024, texture_height := 768 }).image_layer_count = 1 :=
  (C9_image_view_swapped_counts 1 1
    { texture_name := RenderTargetType.SceneDepth,
      texture_width := 1024, texture_height := 768 } (by decide)).2.2.1

/-- Claim C10: next_debug_render_target advances the ordinal by one and wraps
the MaxBound sentinel (ordinal 23) to 0, while prev_debug_render_target maps
ordinal 0 to 22 (MaxBound - 1) and otherwise subtracts one, skipping the
sentinel; so stepping forward from FFT_SLOPE_VARIANCE selects MaxBound, which
has no entry in the render-target map, prev(next(MaxBound)) differs from
MaxBound, and next(prev(SceneColor)) is MaxBound rather than SceneColor. -/
theorem C10_debug_cycle_asymmetry :
    (∀ v : RenderTargetType,
        (next_debug_render_target v).toOrdinal = (v.toOrdinal + 1) % 24)
    ∧ (∀ v : RenderTargetType,
        (prev_debug_render_target v).toOrdinal =
          if v.toOrdinal = 0 then 22 else v.toOrdinal - 1)
    ∧ next_debug_render_target RenderTargetType.MaxBound = RenderTargetType.SceneColor
    ∧ prev_debug_render_target RenderTargetType.SceneColor = RenderTargetType.FFT_SLOPE_VARIANCE
    ∧ next_debug_render_target RenderTargetType.FFT_SLOPE_VARIANCE = RenderTargetType.MaxBound
    ∧ RenderTargetType.MaxBound ∉ render_target_data_map_keys 1024 768
    ∧ prev_debug_render_target (next_debug_render_target RenderTargetType.MaxBound)
        ≠ RenderTargetType.MaxBound
    ∧ next_debug_render_target (prev_debug_render_target RenderTargetType.SceneColor)
        = RenderTargetType.MaxBound
    ∧ RenderTargetType.MaxBound ≠ RenderTargetType.SceneColor :=
  ⟨fun v => by cases v <;> decide, fun v => by cases v <;> decide,
   by decide, by decide, by decide, by decide, by decide, by decide, by decide⟩

/-- Counterexample for C3: a swapchain reported out of date by acquire does
not lead to a normal return with need_recreate_swapchain set — the source
calls .unwrap() on the acquire result, so render_scene panics (modelled as
none) instead of returning an outcome. -/
theorem C3_counterexample :
    ¬ ∃ out, render_scene 0 false (Except.error VkResultCode.errorOutOfDateKhr)
        (Except.ok false) = some out ∧ out.needRecreateSwapchain = true := by
  rintro ⟨out, hout, -⟩
  exact Option.noConfusion hout

/-- Claim C3 as amended: a suboptimal result at acquire, and an out-of-date
or suboptimal result at present, are absorbed — render_scene returns
normally, sets need_recreate_swapchain and, in the acquire case, skips
rendering that tick — but an out-of-date error at acquire is unwrapped and
panics. -/
theorem C3_swapchain_error_absorption :
    (∀ fi nr idx p,
        render_scene fi nr (Except.ok (idx, true)) p =
          some { needRecreateSwapchain := true,
                 frameIndexAfter := (fi + 1) % MAX_FRAME_COUNT,
                 rendered := false,
                 submittedCommandBuffer := none })
    ∧ (∀ fi nr idx,
        render_scene fi nr (Except.ok (idx, false))
            (Except.error VkResultCode.errorOutOfDateKhr) =
          some { needRecreateSwapchain := true,
                 frameIndexAfter := (fi + 1) % MAX_FRAME_COUNT,
                 rendered := true,
                 submittedCommandBuffer := some idx })
    ∧ (∀ fi nr idx,
        render_scene fi nr (Except.ok (idx, false)) (Except.ok true) =
          some { needRecreateSwapchain := true,
                 frameIndexAfter := (fi + 1) % MAX_FRAME_COUNT,
                 rendered := true,
                 submittedCommandBuffer := some idx })
    ∧ (∀ fi idx,
        render_scene fi false (Except.ok (idx, false)) (Except.ok false) =
          some { needRecreateSwapchain := false,
                 frameIndexAfter := (fi + 1) % MAX_FRAME_COUNT,
                 rendered := true,
                 submittedCommandBuffer := some idx })
    ∧ (∀ fi nr p,
        render_scene fi nr (Except.error VkResultCode.errorOutOfDateKhr) p = none) :=
  ⟨fun _ _ _ _ => rfl, fun _ _ _ => rfl, fun _ _ _ => rfl, fun _ _ => rfl, fun _ _ _ => rfl⟩

/-- Claim C4: the command buffer begun, recorded and submitted by
render_scene is the one indexed by the swapchain image index returned by
acquire, and in general differs from the one indexed by the rotating
frame-slot index. -/
theorem C4_command_buffer_indexed_by_swapchain_image :
    (∀ fi nr idx p out,
        render_scene fi nr (Except.ok (idx, false)) p = some out →
        out.submittedCommandBuffer = some idx)
    ∧ (∃ fi idx p out,
        render_scene fi false (Except.ok (idx, false)) p = some out
        ∧ out.submittedCommandBuffer ≠ some fi) := by
  constructor
  · intro fi nr idx p out hout
    cases p with
    | error e => obtain rfl := Option.some.inj hout; rfl
    | ok b => cases b <;> (obtain rfl := Option.some.inj hout; rfl)
  · exact ⟨0, 1, Except.ok false,
      { needRecreateSwapchain := false, frameIndexAfter := 1,
        rendered := true, submittedCommandBuffer := some 1 },
      rfl, by decide⟩

/-- Witness for C4: a concrete successful frame with frame-slot index 0 and
acquired image index 2 submits command buffer 2. -/
theorem C4_witness :
    (FrameOutcome.mk false 1 true (some 2)).submittedCommandBuffer = some 2 :=
  C4_command_buffer_indexed_by_swapchain_image.1 0 false 2 (Except.ok false) _ rfl

/-- The property claim C1 asserts of the frame loop: once a frame slot is
reused MAX_FRAME_COUNT frames later, a fence wait for that slot has been
observed in the synchronization trace. -/
def fence_observed_claim : Prop :=
  ∀ n k : Nat, k + MAX_FRAME_COUNT < n →
    GpuSyncEvent.waitForFences (k % MAX_FRAME_COUNT) ∈ render_loop_trace n

/-- Counterexample for C1: in a three-frame loop, slot 0 (used by frame 0) is
reused by frame 2, yet no fence wait for slot 0 — indeed no fence wait at all
and no submit carrying a fence — ever occurs: present_swapchain hardcodes
waiting_for_fence to false and passes a null fence to vkQueueSubmit. -/
theorem C1_counterexample :
    ¬ fence_observed_claim
    ∧ GpuSyncEvent.queueSubmit (some 0) ∉ render_loop_trace 3 := by
  constructor
  · intro hcl
    have h := hcl 3 0 (by decide)
    revert h
    decide
  · decide

/-- Claim C1 as amended: the slot fence is reset before the queue submit of
the frame, but the submit passes a null fence (waiting_for_fence is
hardcoded false) so the fence is never signaled nor awaited; instead
present_swapchain ends with device_wait_idle, so the GPU is fully idle when
the call returns and at most one frame has GPU work in flight. -/
theorem C1_fence_reset_but_never_awaited (slot : Nat) :
    occursBefore (GpuSyncEvent.resetFences slot) (GpuSyncEvent.queueSubmit none)
      (present_swapchain_trace slot)
    ∧ (∀ f, GpuSyncEvent.queueSubmit (some f) ∉ present_swapchain_trace slot)
    ∧ (∀ s, GpuSyncEvent.waitForFences s ∉ present_swapchain_trace slot)
    ∧ (present_swapchain_trace slot).getLast? = some GpuSyncEvent.deviceWaitIdle := by
  refine ⟨⟨0, 1, by decide, rfl, rfl⟩, ?_, ?_, rfl⟩
  · intro f hf
    simp [present_swapchain_trace, waiting_for_fence] at hf
  · intro s hs
    simp [present_swapchain_trace, waiting_for_fence] at hs

/-- Witness for C1 at frame slot 0: the trace ends with the device idle
wait. -/
theorem C1_witness :
    (present_swapchain_trace 0).getLast? = some GpuSyncEvent.deviceWaitIdle :=
  (C1_fence_reset_but_never_awaited 0).2.2.2

/-- A helper: the per-element loop of render_solid followed by the closing
endRenderPass contains one descriptor-set bind per element, no pass begin
and one pass end. -/
theorem render_solid_loop_end_counts (l : List Nat) :
    countBinds (render_solid_loop l ++ [DrawEvent.endRenderPass]) = l.length
    ∧ countBegins (render_solid_loop l ++ [DrawEvent.endRenderPass]) = 0
    ∧ countEnds (render_solid_loop l ++ [DrawEvent.endRenderPass]) = 1 := by
  induction l with
  | nil => exact ⟨rfl, rfl, rfl⟩
  | cons a t ih =>
    obtain ⟨h1, h2, h3⟩ := ih
    exact ⟨by simp [render_solid_loop, countBinds, h1],
           by simp [render_solid_loop, countBegins, h2],
           by simp [render_solid_loop, countEnds, h3]⟩

/-- A helper: the per-element loop of render_shadow followed by the closing
endRenderPass contains no descriptor-set bind, no pass begin and one pass
end. -/
theorem render_shadow_loop_end_counts (l : List Nat) :
    countBinds (render_shadow_loop l ++ [DrawEvent.endRenderPass]) = 0
    ∧ countBegins (render_shadow_loop l ++ [DrawEvent.endRenderPass]) = 0
    ∧ countEnds (render_shadow_loop l ++ [DrawEvent.endRenderPass]) = 1 := by
  induction l with
  | nil => exact ⟨rfl, rfl, rfl⟩
  | cons a t ih =>
    obtain ⟨h1, h2, h3⟩ := ih
    exact ⟨by simp [render_shadow_loop, countBinds, h1],
           by simp [render_shadow_loop, countBegins, h2],
           by simp [render_shadow_loop, countEnds, h3]⟩

/-- Counterexample for C5: for two consecutive render elements with the same
pipeline binding, render_solid issues two descriptor-set binds, not the one
bind the minimal-rebinding claim predicts — the source binds unconditionally
for every element and tracks no previous pipeline or binding. -/
theorem C5_counterexample :
    ¬ minimal_bind_claim RenderObjectType.Static [7, 7] := by
  unfold minimal_bind_claim
  decide

/-- Claim C5 as amended: for a non-empty element list both render_solid and
render_shadow begin the render pass exactly once and end it exactly once,
and an empty list skips the pass entirely; but the descriptor-set binds are
not minimized — render_solid issues exactly one bind per element no matter
whether consecutive bindings coincide, while render_shadow issues exactly
one bind for the whole pass. -/
theorem C5_pass_structure :
    (∀ rot, render_solid rot [] = [])
    ∧ (∀ b, render_shadow b [] = [])
    ∧ (∀ rot b0 rest,
        countBegins (render_solid rot (b0 :: rest)) = 1
        ∧ countEnds (render_solid rot (b0 :: rest)) = 1
        ∧ countBinds (render_solid rot (b0 :: rest)) = (b0 :: rest).length)
    ∧ (∀ b b0 rest,
        countBegins (render_shadow b (b0 :: rest)) = 1
        ∧ countEnds (render_shadow b (b0 :: rest)) = 1
        ∧ countBinds (render_shadow b (b0 :: rest)) = 1) := by
  refine ⟨fun rot => rfl, fun b => rfl, ?_, ?_⟩
  · intro rot b0 rest
    obtain ⟨hs1, hs2, hs3⟩ := render_solid_loop_end_counts rest
    cases rot <;>
      refine ⟨?_, ?_, ?_⟩ <;>
        simp [render_solid, render_solid_loop, countBinds, countBegins, countEnds,
          hs1, hs2, hs3]
  · intro b b0 rest
    obtain ⟨hs1, hs2, hs3⟩ := render_shadow_loop_end_counts rest
    refine ⟨?_, ?_, ?_⟩ <;>
      simp [render_shadow, render_shadow_loop, countBinds, countBegins, countEnds,
        hs1, hs2, hs3]

/-- Claim C7: the mip-downsampling compute chain builds, per layer, exactly
image_mip_levels - 1 descriptor sets, the one for mip transition m binding
the (layer, m) and (layer, m + 1) sub-images at positions 0 and 1; the
dispatch for transition m uses group count max(1, base >> (m + 1)) per axis,
equal to max(1, base / 2 ^ (m + 1)); for a 1024 x 768 base and m = 0 this is
(512, 384), and once 2 ^ (m + 1) exceeds the base extent it clamps to 1. -/
theorem C7_mip_downsampling_chain (L M layer m W n : Nat)
    (hL : layer < L) (hm : m < M - 1) (hsmall : W < 2 ^ (n + 1)) :
    (fft_a_generate_mips_descriptor_sets L M).length = L
    ∧ (∀ chain ∈ fft_a_generate_mips_descriptor_sets L M, chain.length = M - 1)
    ∧ (∃ chain, (fft_a_generate_mips_descriptor_sets L M)[layer]? = some chain
        ∧ chain[m]? = some { binding0 := (layer, m), binding1 := (layer, m + 1) })
    ∧ (∀ base mip, dispatch_compute_group_count base mip = max 1 (base / 2 ^ (mip + 1)))
    ∧ dispatch_compute_group_count 1024 0 = 512
    ∧ dispatch_compute_group_count 768 0 = 384
    ∧ dispatch_compute_group_count W n = 1 := by
  refine ⟨?_, ?_, ?_, ?_, by decide, by decide, ?_⟩
  · simp [fft_a_generate_mips_descriptor_sets]
  · intro chain hchain
    simp only [fft_a_generate_mips_descriptor_sets, List.mem_map] at hchain
    obtain ⟨layer2, -, rfl⟩ := hchain
    simp
  · refine ⟨(List.range (M - 1)).map
      (fun mip_level => { binding0 := (layer, mip_level), binding1 := (layer, mip_level + 1) }), ?_, ?_⟩
    · simp [fft_a_generate_mips_descriptor_sets, List.getElem?_map, List.getElem?_range, hL]
    · simp [List.getElem?_map, List.getElem?_range, hm]
  · intro base mip
    simp [dispatch_compute_group_count, Nat.shiftRight_eq_div_pow]
  · unfold dispatch_compute_group_count
    rw [Nat.shiftRight_eq_div_pow, Nat.div_eq_of_lt hsmall]
    decide

/-- Witness for C7 at the FFT ocean texture parameters: 5 layers, 9 mip
levels (a 256 x 256 mipmapped texture), layer 2, transition 3, and a 768
base extent clamped at transition 9. -/
theorem C7_witness :
    (2 < 5 ∧ 3 < 9 - 1 ∧ 768 < 2 ^ (9 + 1))
    ∧ (fft_a_generate_mips_descriptor_sets 5 9).length = 5
    ∧ dispatch_compute_group_count 768 9 = 1 := by
  have h := C7_mip_downsampling_chain 5 9 2 3 768 9 (by decide) (by decide) (by decide)
  exact ⟨⟨by decide, by decide, by decide⟩, h.1, h.2.2.2.2.2.2⟩

/-- Counterexample for C2 at the concrete extent 1024 x 768: the recreation
path destroys the fixed-size render targets (shadow map, FFT textures) along
with everything else, and destruction events (scene graphics data, UI and
font descriptor sets) precede the idle wait. -/
theorem C2_counterexample :
    ¬ (fixed_size_targets_untouched (run_application_recreate_trace 1024 768)
       ∧ no_destruction_before_idle_wait (run_application_recreate_trace 1024 768)) := by
  unfold fixed_size_targets_untouched no_destruction_before_idle_wait
  decide

/-- Claim C2 as amended: when needs_recreate is observed at the top of the
frame loop, the scene graphics data and the UI and font descriptor sets are
destroyed first, then the protocol runs in strict order — idle wait,
unloading of framebuffers and descriptor sets, destruction of ALL render
targets (the fixed-size shadow map and FFT textures included), swapchain and
command-buffer destruction, swapchain and command-buffer recreation,
recreation of all render targets (window-dependent ones at the new extent,
the shadow map at its fixed size), reload of framebuffers and descriptor
sets, recreation of the external descriptor sets — and the flag is cleared
last. -/
theorem C2_resize_protocol_order (w h : Nat) :
    ((run_application_recreate_trace w h).map resizePhase).Chain' (· ≤ ·)
    ∧ (run_application_recreate_trace w h).takeWhile
        (fun ev => decide (ev ≠ ResizeEvent.deviceWaitIdle)) =
        [ResizeEvent.destroySceneGraphicsData, ResizeEvent.destroyUIDescriptorSets,
         ResizeEvent.destroyFontDescriptorSets]
    ∧ (∀ t ∈ render_target_data_map_keys w h,
        ResizeEvent.destroyRenderTarget t ∈ run_application_recreate_trace w h)
    ∧ ResizeEvent.createRenderTarget
        { texture_name := RenderTargetType.Shadow,
          texture_width := SHADOW_MAP_SIZE, texture_height := SHADOW_MAP_SIZE }
        ∈ run_application_recreate_trace w h
    ∧ ResizeEvent.createRenderTarget
        { texture_name := RenderTargetType.SceneColor,
          texture_width := w, texture_height := h }
        ∈ run_application_recreate_trace w h
    ∧ (run_application_recreate_trace w h).getLast? = some ResizeEvent.clearNeedsRecreate := by
  refine ⟨?_, rfl, ?_, ?_, ?_, rfl⟩
  · have e : (run_application_recreate_trace w h).map resizePhase =
        [0, 0, 0, 1, 2,
         2, 2, 2, 2, 2, 2, 2, 2, 2, 2, 2, 2, 2, 2, 2, 2, 2, 2, 2, 2, 2, 2, 2,
         3, 3, 4, 4,
         5, 5, 5, 5, 5, 5, 5, 5, 5, 5, 5, 5, 5, 5, 5, 5, 5, 5, 5, 5, 5, 5, 5,
         6, 7, 7, 7, 8] := rfl
    rw [e]
    simp [List.chain'_cons]
  · intro t ht
    have hd : ResizeEvent.destroyRenderTarget t ∈ destroy_render_targets_trace w h :=
      List.mem_map_of_mem _ ht
    unfold run_application_recreate_trace resize_window_trace
    simp only [List.mem_append, List.mem_cons]
    tauto
  · simp [run_application_recreate_trace, resize_window_trace, create_render_targets_trace,
      get_render_target_create_infos]
  · simp [run_application_recreate_trace, resize_window_trace, create_render_targets_trace,
      get_render_target_create_infos]

/-- Witness for C2 at the concrete extent 1024 x 768 and the shadow map. -/
theorem C2_witness :
    RenderTargetType.Shadow ∈ render_target_data_map_keys 1024 768
    ∧ ResizeEvent.destroyRenderTarget RenderTargetType.Shadow
        ∈ run_application_recreate_trace 1024 768 :=
  ⟨by decide, (C2_resize_protocol_order 1024 768).2.2.1 RenderTargetType.Shadow (by decide)⟩

end RustEngine3D
